import Mathlib

/-!
# Verification of the reverse proxy handlers (server/handlers/proxy.go)

The two handlers `ProxyAuthHandler` and `ProxyGraphQLHandler` are embedded as
pure functions from the inbound request and the behaviour of the outside world
(`Env`: what `client.Do` answers) to the ordered trace of
effects the Go code performs.  The calls on the `http.ResponseWriter` are effects
of the trace; `respond` replays them on a recording writer that follows the
`net/http` server: `WriteHeader` panics on a code outside 100..999, sends a 1xx code
other than 101 as an informational response, and otherwise fixes the status line and
the header sent with it (first call wins); `Write` appends to the body unless the
status allows none.  A panic ends the handler: only the deferred calls still run and
the caller receives nothing that was not already sent.
-/

namespace Proxy

/-! ## Data model -/

/-- Byte sequences (`[]byte`). -/
abbrev Bytes := List UInt8

/-- An `http.Header`: canonical key to list of values. -/
structure Header where
  entries : List (String × List String)
  deriving DecidableEq, Repr

/-- Go `Header.Get`: the first value stored under the key, `""` when there is none. -/
def Header.Get (h : Header) (key : String) : String :=
  match h.entries.lookup key with
  | some (v :: _) => v
  | _ => ""

/-- Go `Header.Set`: replaces whatever is stored under the key by the single value. -/
def Header.Set (h : Header) (key value : String) : Header :=
  ⟨h.entries.filter (fun p => p.1 != key) ++ [(key, [value])]⟩

/-- An `io.Reader` as seen by `io.ReadAll`: the bytes delivered before the read
ends, and the error that ended it (`none` for a clean end of stream). -/
structure Reader where
  data : Bytes
  err : Option String
  deriving DecidableEq, Repr

/-- Go `io.ReadAll`: returns the bytes read and the error, if any. -/
def ReadAll (rd : Reader) : Bytes × Option String := (rd.data, rd.err)

/-- The inbound `*http.Request`, as far as the handlers look at it. -/
structure Request where
  Method : String
  Header : Proxy.Header
  Body : Reader
  deriving DecidableEq, Repr

/-- The outbound request built with `http.NewRequest`; `Body = none` is the `nil`
body, `some b` is `bytes.NewReader(b)`. -/
structure OutboundRequest where
  Method : String
  URL : String
  Header : Proxy.Header
  Body : Option Bytes
  deriving DecidableEq, Repr

/-- Go `proxyReq.Header.Set`. -/
def OutboundRequest.setHeader (q : OutboundRequest) (key value : String) : OutboundRequest :=
  { q with Header := q.Header.Set key value }

/-- The upstream `*http.Response`: status code and body stream. -/
structure Response where
  StatusCode : Int
  Body : Reader
  deriving DecidableEq, Repr

/-- The outside world of one handler run: what `client.Do` returns for an outbound
request. -/
structure Env where
  clientDo : OutboundRequest → Except String Response

/-- Go `isTokenRune` for ASCII: letters, digits and the token punctuation
(code points of the characters allowed in an HTTP token). -/
def isTokenChar (c : Char) : Bool :=
  c.isAlphanum || [33, 35, 36, 37, 38, 39, 42, 43, 45, 46, 94, 95, 96, 124, 126].contains c.toNat

/-- Go `validMethod`: a non-empty string of token characters. -/
def validMethod (method : String) : Bool :=
  !method.toList.isEmpty && method.toList.all isTokenChar

/-- Go `stringContainsCTLByte`: the check with which `url.Parse` rejects a URL
holding an ASCII control character. -/
def stringContainsCTLByte (s : String) : Bool :=
  s.toList.any fun c => c.toNat < 32 || c.toNat == 127

/-- Go `http.NewRequest`: rejects an invalid method and a URL that `url.Parse`
refuses, otherwise returns a request with an empty header.  Of the checks of
`url.Parse` the control-character check is embedded; the two endpoint constants
(scheme https, plain host name, plain path) pass the remaining ones. -/
def NewRequest (method url : String) (body : Option Bytes) :
    Except String OutboundRequest :=
  let method := if method = "" then "GET" else method
  if validMethod method = false then
    .error ("net/http: invalid method " ++ method)
  else if stringContainsCTLByte url = true then
    .error "net/url: invalid control character in URL"
  else
    .ok { Method := method, URL := url, Header := ⟨[]⟩, Body := body }

/-! ## Constants -/

def authEndpoint : String := "https://platform.zone01.gr/api/auth/signin"
def graphqlEndpoint : String := "https://platform.zone01.gr/api/graphql-engine/v1/graphql"

def MethodPost : String := "POST"
def StatusSwitchingProtocols : Int := 101
def StatusOK : Int := 200
def StatusNoContent : Int := 204
def StatusNotModified : Int := 304
def StatusBadRequest : Int := 400
def StatusUnauthorized : Int := 401
def StatusMethodNotAllowed : Int := 405
def StatusInternalServerError : Int := 500
def StatusBadGateway : Int := 502

/-! ## Effects -/

/-- One observable step of a handler run, in program order.  The constructor
`panicked` marks the point where a library call panics and the handler body ends. -/
inductive Effect where
  | readAllInbound
  | closeInbound
  | newRequest (method url : String) (body : Option Bytes)
  | clientDo (req : OutboundRequest)
  | readAllUpstream
  | closeUpstream
  | logPrintf (msg : String)
  | setHeader (key value : String)
  | writeHeader (code : Int)
  | write (b : Bytes)
  | panicked (msg : String)
  deriving DecidableEq, Repr

/-- The effect touches the response to the caller. -/
def Effect.isCallerWrite : Effect → Bool
  | .setHeader _ _ => true
  | .writeHeader _ => true
  | .write _ => true
  | _ => false

/-- The effect is a pipeline step before the reply: reading the inbound body,
building or executing the outbound request, reading the upstream body. -/
def Effect.isPipelineStep : Effect → Bool
  | .readAllInbound => true
  | .newRequest _ _ _ => true
  | .clientDo _ => true
  | .readAllUpstream => true
  | _ => false

/-- The outbound requests executed in a trace, in order. -/
def outboundCalls (t : List Effect) : List OutboundRequest :=
  t.filterMap fun
    | .clientDo q => some q
    | _ => none

/-- The status codes passed to `WriteHeader` in a trace, in order. -/
def statusWrites (t : List Effect) : List Int :=
  t.filterMap fun
    | .writeHeader c => some c
    | _ => none

/-! ## The response writer of the `net/http` server -/

/-- Go `checkWriteHeaderCode`: true when the code is accepted, false when the call
panics with "invalid WriteHeader code". -/
def checkWriteHeaderCode (code : Int) : Bool :=
  decide (100 ≤ code ∧ code ≤ 999)

/-- A 1xx code other than 101, which `WriteHeader` sends as an informational
response without fixing the final status. -/
def isInformational (code : Int) : Bool :=
  decide (100 ≤ code ∧ code ≤ 199 ∧ code ≠ StatusSwitchingProtocols)

/-- Go `bodyAllowedForStatus`: no body for 1xx, 204 and 304. -/
def bodyAllowedForStatus (status : Int) : Bool :=
  !(decide (100 ≤ status ∧ status ≤ 199) || status == StatusNoContent
    || status == StatusNotModified)

/-- Go `suppressedHeaders`: the header keys the server drops for a status. -/
def suppressedHeaders (status : Int) : List String :=
  if status = StatusNotModified then
    ["Content-Type", "Content-Length", "Transfer-Encoding"]
  else if bodyAllowedForStatus status = false then
    ["Content-Length", "Transfer-Encoding"]
  else
    []

/-- Go `Header.Del`, for a list of keys. -/
def Header.DelAll (h : Header) (keys : List String) : Header :=
  ⟨h.entries.filter (fun p => !keys.contains p.1)⟩

/-- The state of the `http.ResponseWriter` as the caller sees it: the live header
map, the informational responses already sent, the final status line with the
header sent with it, the body written, and whether the handler panicked. -/
structure ResponseWriter where
  header : Header := ⟨[]⟩
  informational : List (Int × Header) := []
  sent : Option (Int × Header) := none
  body : Bytes := []
  aborted : Bool := false
  deriving DecidableEq, Repr

/-- Go `WriteHeader`: ignored once a final status was sent; panics on a code outside
100..999; sends a 1xx code other than 101 as an informational response; otherwise
fixes the status and the header, without the keys suppressed for the status. -/
def ResponseWriter.WriteHeader (w : ResponseWriter) (code : Int) : ResponseWriter :=
  match w.sent with
  | some _ => w
  | none =>
    if checkWriteHeaderCode code = false then
      { w with aborted := true }
    else if isInformational code = true then
      { w with informational :=
          w.informational ++ [(code, w.header.DelAll ["Content-Length", "Transfer-Encoding"])] }
    else
      { w with sent := some (code, w.header.DelAll (suppressedHeaders code)) }

/-- Go `Write`: sends the header with status 200 when no final status was sent, then
appends the bytes unless the status allows no body. -/
def ResponseWriter.Write (w : ResponseWriter) (b : Bytes) : ResponseWriter :=
  let w1 := w.WriteHeader StatusOK
  { w1 with body :=
      match w1.sent with
      | none => w1.body
      | some (status, _) =>
        if bodyAllowedForStatus status = true then w1.body ++ b else w1.body }

/-- Replays one effect on the writer; after a panic nothing more reaches the caller. -/
def ResponseWriter.step (w : ResponseWriter) (e : Effect) : ResponseWriter :=
  if w.aborted = true then w
  else
    match e with
    | .setHeader k v => { w with header := w.header.Set k v }
    | .writeHeader c => w.WriteHeader c
    | .write b => w.Write b
    | .panicked _ => { w with aborted := true }
    | _ => w

/-- The response the caller receives from a trace. -/
def respond (t : List Effect) : ResponseWriter :=
  t.foldl ResponseWriter.step {}

/-- Final status code received by the caller, if a final status line was sent. -/
def ResponseWriter.status (w : ResponseWriter) : Option Int := w.sent.map Prod.fst

/-- Header received by the caller with the final status line (empty when none was
sent). -/
def ResponseWriter.sentHeader (w : ResponseWriter) : Header :=
  match w.sent with
  | some (_, h) => h
  | none => ⟨[]⟩

/-- The call `w.WriteHeader(code)` followed by the rest of the handler body: when the
code is rejected the call panics and the rest does not run. -/
def writeHeaderThen (code : Int) (rest : List Effect) : List Effect :=
  .writeHeader code ::
    (if checkWriteHeaderCode code = true then rest
     else [.panicked ("invalid WriteHeader code " ++ toString code)])

/-- Go `http.Error`: plain-text content type, `nosniff`, the status code, and the
message followed by a newline. -/
def httpError (msg : String) (code : Int) : List Effect :=
  [ .setHeader "Content-Type" "text/plain; charset=utf-8",
    .setHeader "X-Content-Type-Options" "nosniff" ]
    ++ writeHeaderThen code [ .write (msg ++ "\n").toUTF8.toList ]

/-! ## The handlers -/

/-- Handler `ProxyAuthHandler` (proxy.go, lines 16-66).  The deferred
`resp.Body.Close()` runs last, also when `WriteHeader` panics. -/
def ProxyAuthHandler (env : Env) (r : Request) : List Effect :=
  if r.Method ≠ MethodPost then
    httpError "Method not allowed" StatusMethodNotAllowed
  else
    let authHeader := r.Header.Get "Authorization"
    if authHeader = "" then
      httpError "Authorization header required" StatusUnauthorized
    else
      match NewRequest "POST" authEndpoint none with
      | .error err =>
        [.newRequest "POST" authEndpoint none,
         .logPrintf ("Error creating auth request: " ++ err)]
          ++ httpError "Internal server error" StatusInternalServerError
      | .ok proxyReq0 =>
        let proxyReq1 := proxyReq0.setHeader "Authorization" authHeader
        let proxyReq := proxyReq1.setHeader "Content-Type" "application/json"
        match env.clientDo proxyReq with
        | .error err =>
          [.newRequest "POST" authEndpoint none,
           .clientDo proxyReq,
           .logPrintf ("Error executing auth request: " ++ err)]
            ++ httpError "Failed to connect to authentication service" StatusBadGateway
        | .ok resp =>
          match ReadAll resp.Body with
          | (_, some err) =>
            [.newRequest "POST" authEndpoint none,
             .clientDo proxyReq,
             .readAllUpstream,
             .logPrintf ("Error reading auth response: " ++ err)]
              ++ httpError "Failed to read response" StatusInternalServerError
              ++ [.closeUpstream]
          | (body, none) =>
            [.newRequest "POST" authEndpoint none,
             .clientDo proxyReq,
             .readAllUpstream,
             .setHeader "Content-Type" "application/json"]
              ++ writeHeaderThen resp.StatusCode
                  [.write body,
                   .logPrintf ("Auth request: status=" ++ toString resp.StatusCode)]
              ++ [.closeUpstream]

/-- Handler `ProxyGraphQLHandler` (proxy.go, lines 69-128).  The deferred
`resp.Body.Close()` and `r.Body.Close()` run last, in that order, also when
`WriteHeader` panics. -/
def ProxyGraphQLHandler (env : Env) (r : Request) : List Effect :=
  if r.Method ≠ MethodPost then
    httpError "Method not allowed" StatusMethodNotAllowed
  else
    let authHeader := r.Header.Get "Authorization"
    if authHeader = "" then
      httpError "Authorization header required" StatusUnauthorized
    else
      match ReadAll r.Body with
      | (_, some err) =>
        [.readAllInbound,
         .logPrintf ("Error reading request body: " ++ err)]
          ++ httpError "Failed to read request" StatusBadRequest
      | (body, none) =>
        match NewRequest "POST" graphqlEndpoint (some body) with
        | .error err =>
          [.readAllInbound,
           .newRequest "POST" graphqlEndpoint (some body),
           .logPrintf ("Error creating GraphQL request: " ++ err)]
            ++ httpError "Internal server error" StatusInternalServerError
            ++ [.closeInbound]
        | .ok proxyReq0 =>
          let proxyReq1 := proxyReq0.setHeader "Authorization" authHeader
          let proxyReq := proxyReq1.setHeader "Content-Type" "application/json"
          match env.clientDo proxyReq with
          | .error err =>
            [.readAllInbound,
             .newRequest "POST" graphqlEndpoint (some body),
             .clientDo proxyReq,
             .logPrintf ("Error executing GraphQL request: " ++ err)]
              ++ httpError "Failed to connect to GraphQL service" StatusBadGateway
              ++ [.closeInbound]
          | .ok resp =>
            match ReadAll resp.Body with
            | (_, some err) =>
              [.readAllInbound,
               .newRequest "POST" graphqlEndpoint (some body),
               .clientDo proxyReq,
               .readAllUpstream,
               .logPrintf ("Error reading GraphQL response: " ++ err)]
                ++ httpError "Failed to read response" StatusInternalServerError
                ++ [.closeUpstream, .closeInbound]
            | (respBody, none) =>
              [.readAllInbound,
               .newRequest "POST" graphqlEndpoint (some body),
               .clientDo proxyReq,
               .readAllUpstream,
               .setHeader "Content-Type" "application/json"]
                ++ writeHeaderThen resp.StatusCode
                    [.write respBody,
                     .logPrintf ("GraphQL request: status=" ++ toString resp.StatusCode
                       ++ ", size=" ++ toString respBody.length ++ " bytes")]
                ++ [.closeUpstream, .closeInbound]

/-- The two routes registered in main.go. -/
inductive Route where
  | authSignin
  | graphql
  deriving DecidableEq, Repr

/-- The path a route is registered under (`mux.HandleFunc`). -/
def Route.path : Route → String
  | .authSignin => "/api/auth/signin"
  | .graphql => "/api/graphql"

/-- The handler registered for a route. -/
def Route.handler : Route → Env → Request → List Effect
  | .authSignin => ProxyAuthHandler
  | .graphql => ProxyGraphQLHandler

/-- The upstream endpoint constant each handler uses. -/
def Route.endpoint : Route → String
  | .authSignin => authEndpoint
  | .graphql => graphqlEndpoint

/-- The request a route's handler hands to `client.Do`: the request returned by
`http.NewRequest("POST", endpoint, body)` after the two `Header.Set` calls.  The auth
handler passes a `nil` body, the GraphQL handler the inbound bytes. -/
def Route.proxyReq (rt : Route) (authHeader : String) (body : Bytes) : OutboundRequest :=
  let proxyReq0 : OutboundRequest :=
    { Method := "POST", URL := rt.endpoint, Header := ⟨[]⟩,
      Body := match rt with
        | .authSignin => none
        | .graphql => some body }
  (proxyReq0.setHeader "Authorization" authHeader).setHeader "Content-Type" "application/json"

/-! ## Concrete runs used for evaluation -/

/-- An upstream that cannot be reached. -/
def envDown : Env :=
  { clientDo := fun _ => .error "dial tcp: connection refused" }

/-- An upstream answering every request with status 200 and a three byte body. -/
def envUp : Env :=
  { clientDo := fun _ => .ok { StatusCode := 200, Body := { data := [123, 125, 10], err := none } } }

/-- An upstream answering every request with the status line `HTTP/1.1 099` and a
three byte body. -/
def envOddStatus : Env :=
  { clientDo := fun _ => .ok { StatusCode := 99, Body := { data := [123, 125, 10], err := none } } }

/-- An upstream answering every request with 304 Not Modified and no body. -/
def envNotModified : Env :=
  { clientDo := fun _ => .ok { StatusCode := 304, Body := { data := [], err := none } } }

/-- An upstream whose body stream breaks after one byte. -/
def envBroken : Env :=
  { clientDo := fun _ =>
      .ok { StatusCode := 200, Body := { data := [123], err := some "unexpected EOF" } } }

/-- A GET request without any header. -/
def reqGetNoAuth : Request :=
  { Method := "GET", Header := ⟨[]⟩, Body := { data := [], err := none } }

/-- A POST request without any header. -/
def reqPostNoAuth : Request :=
  { Method := "POST", Header := ⟨[]⟩, Body := { data := [], err := none } }

/-- A POST request with a bearer token, one more header and a two byte body. -/
def reqPost : Request :=
  { Method := "POST",
    Header := ⟨[("Authorization", ["Bearer abc"]), ("X-Trace", ["1"])]⟩,
    Body := { data := [123, 125], err := none } }

/-- A POST request with a bearer token whose body cannot be read. -/
def reqPostUnreadable : Request :=
  { Method := "POST",
    Header := ⟨[("Authorization", ["Bearer abc"])]⟩,
    Body := { data := [123], err := some "connection reset" } }

/-! ## Library calls on the values the handlers use -/

/-- Building the outbound request succeeds for the auth endpoint constant. -/
theorem NewRequest_authEndpoint (body : Option Bytes) :
    NewRequest "POST" authEndpoint body
      = .ok { Method := "POST", URL := authEndpoint, Header := ⟨[]⟩, Body := body } := by
  have h1 : validMethod "POST" = true := by decide
  have h2 : stringContainsCTLByte authEndpoint = false := by decide
  simp [NewRequest, h1, h2]

/-- Building the outbound request succeeds for the GraphQL endpoint constant. -/
theorem NewRequest_graphqlEndpoint (body : Option Bytes) :
    NewRequest "POST" graphqlEndpoint body
      = .ok { Method := "POST", URL := graphqlEndpoint, Header := ⟨[]⟩, Body := body } := by
  have h1 : validMethod "POST" = true := by decide
  have h2 : stringContainsCTLByte graphqlEndpoint = false := by decide
  simp [NewRequest, h1, h2]

/-- The reply of `http.Error` with a final status code carries that status. -/
theorem respond_httpError_status (msg : String) (code : Int)
    (h1 : checkWriteHeaderCode code = true) (h2 : isInformational code = false) :
    (respond (httpError msg code)).status = some code := by
  simp [respond, httpError, writeHeaderThen, ResponseWriter.step,
    ResponseWriter.WriteHeader, ResponseWriter.Write, ResponseWriter.status, h1, h2]

theorem outboundCalls_httpError (msg : String) (code : Int) :
    outboundCalls (httpError msg code) = [] := by
  simp only [outboundCalls, httpError, writeHeaderThen]
  split <;> simp

/-- Reading back the only key set on an empty header. -/
theorem Header.Get_Set_empty (key value : String) :
    (Header.Set ⟨[]⟩ key value).Get key = value := by
  simp [Header.Set, Header.Get, List.lookup]

/-- Effects that neither touch the writer nor panic can be dropped in front of a
trace. -/
theorem respond_cons_of_not_callerWrite (e : Effect) (t : List Effect)
    (h : e.isCallerWrite = false) (hp : ∀ m, e ≠ .panicked m) :
    respond (e :: t) = respond t := by
  cases e <;> simp_all [respond, ResponseWriter.step, Effect.isCallerWrite]

/-! ## Rejections before any outbound call -/

/-- The method guard: a request whose method is not POST gets the 405 reply and
nothing else happens. -/
theorem handler_of_non_post (rt : Route) (env : Env) (r : Request)
    (hm : r.Method ≠ MethodPost) :
    rt.handler env r = httpError "Method not allowed" StatusMethodNotAllowed := by
  cases rt <;> simp [Route.handler, ProxyAuthHandler, ProxyGraphQLHandler, hm]

/-- The header guard: a POST request without Authorization value gets the 401 reply
and nothing else happens. -/
theorem handler_of_no_authorization (rt : Route) (env : Env) (r : Request)
    (hm : r.Method = MethodPost) (ha : r.Header.Get "Authorization" = "") :
    rt.handler env r = httpError "Authorization header required" StatusUnauthorized := by
  cases rt <;> simp [Route.handler, ProxyAuthHandler, ProxyGraphQLHandler, hm, ha]

/-- C3: for both handlers, every request whose method is not POST, whatever its
headers and body, is answered with status 405 and no outbound call is made. -/
theorem non_post_is_method_not_allowed (rt : Route) (env : Env) (r : Request)
    (hm : r.Method ≠ "POST") :
    (respond (rt.handler env r)).status = some 405 ∧
      outboundCalls (rt.handler env r) = [] := by
  rw [handler_of_non_post rt env r hm]
  exact ⟨respond_httpError_status _ _ (by decide) (by decide), outboundCalls_httpError _ _⟩

theorem non_post_is_method_not_allowed_witness :
    reqGetNoAuth.Method ≠ "POST" ∧
      (respond (Route.graphql.handler envUp reqGetNoAuth)).status = some 405 ∧
      outboundCalls (Route.graphql.handler envUp reqGetNoAuth) = [] :=
  ⟨by decide, non_post_is_method_not_allowed Route.graphql envUp reqGetNoAuth (by decide)⟩

/-- C4, as stated, fails: a GET request without Authorization header is answered
with 405 by both handlers, not with 401. -/
theorem missing_authorization_any_method_counterexample :
    reqGetNoAuth.Header.Get "Authorization" = "" ∧
      (respond (ProxyAuthHandler envUp reqGetNoAuth)).status = some 405 ∧
      (respond (ProxyGraphQLHandler envUp reqGetNoAuth)).status = some 405 ∧
      (respond (ProxyAuthHandler envUp reqGetNoAuth)).status ≠ some 401 ∧
      (respond (ProxyGraphQLHandler envUp reqGetNoAuth)).status ≠ some 401 := by
  decide

/-- C4 (amended): for both handlers, every request whose Authorization header is
absent or empty causes no outbound call; when its method is POST the status is 401,
and otherwise it is 405. -/
theorem missing_authorization_is_unauthorized (rt : Route) (env : Env) (r : Request)
    (ha : r.Header.Get "Authorization" = "") :
    outboundCalls (rt.handler env r) = [] ∧
      (r.Method = "POST" → (respond (rt.handler env r)).status = some 401) ∧
      (r.Method ≠ "POST" → (respond (rt.handler env r)).status = some 405) := by
  refine ⟨?_, fun hm => ?_, fun hm => ?_⟩
  · by_cases hm : r.Method = MethodPost
    · rw [handler_of_no_authorization rt env r hm ha]
      exact outboundCalls_httpError _ _
    · rw [handler_of_non_post rt env r hm]
      exact outboundCalls_httpError _ _
  · rw [handler_of_no_authorization rt env r hm ha]
    exact respond_httpError_status _ _ (by decide) (by decide)
  · rw [handler_of_non_post rt env r hm]
    exact respond_httpError_status _ _ (by decide) (by decide)

theorem missing_authorization_is_unauthorized_witness :
    reqPostNoAuth.Header.Get "Authorization" = "" ∧
      outboundCalls (Route.authSignin.handler envUp reqPostNoAuth) = [] ∧
      (reqPostNoAuth.Method = "POST" →
        (respond (Route.authSignin.handler envUp reqPostNoAuth)).status = some 401) ∧
      (reqPostNoAuth.Method ≠ "POST" →
        (respond (Route.authSignin.handler envUp reqPostNoAuth)).status = some 405) :=
  ⟨by decide, missing_authorization_is_unauthorized Route.authSignin envUp reqPostNoAuth (by decide)⟩

/-- C8: in the GraphQL handler, a POST request with a non-empty Authorization header
whose body cannot be read is answered with status 400 and no outbound call is made. -/
theorem graphql_unreadable_body_is_bad_request (env : Env) (r : Request) (e : String)
    (hm : r.Method = "POST") (ha : r.Header.Get "Authorization" ≠ "")
    (hb : r.Body.err = some e) :
    (respond (ProxyGraphQLHandler env r)).status = some 400 ∧
      outboundCalls (ProxyGraphQLHandler env r) = [] := by
  have hm2 : r.Method = MethodPost := hm
  have ht : ProxyGraphQLHandler env r =
      [.readAllInbound, .logPrintf ("Error reading request body: " ++ e)]
        ++ httpError "Failed to read request" StatusBadRequest := by
    simp [ProxyGraphQLHandler, hm2, ha, ReadAll, hb]
  rw [ht]
  constructor
  · simp only [List.cons_append, List.nil_append]
    rw [respond_cons_of_not_callerWrite Effect.readAllInbound _ rfl (by simp),
      respond_cons_of_not_callerWrite (Effect.logPrintf _) _ rfl (by simp)]
    exact respond_httpError_status _ _ (by decide) (by decide)
  · simp [outboundCalls, httpError, writeHeaderThen, checkWriteHeaderCode, StatusBadRequest]

theorem graphql_unreadable_body_is_bad_request_witness :
    reqPostUnreadable.Method = "POST" ∧
      reqPostUnreadable.Header.Get "Authorization" ≠ "" ∧
      reqPostUnreadable.Body.err = some "connection reset" ∧
      (respond (ProxyGraphQLHandler envUp reqPostUnreadable)).status = some 400 ∧
      outboundCalls (ProxyGraphQLHandler envUp reqPostUnreadable) = [] :=
  ⟨by decide, by decide, by decide,
    graphql_unreadable_body_is_bad_request envUp reqPostUnreadable "connection reset"
      (by decide) (by decide) (by decide)⟩

/-! ## Runs that reach the upstream -/

/-- C1, as stated, fails: an upstream status line `HTTP/1.1 099` makes
`WriteHeader` panic, so the caller receives neither status nor body, and for the
upstream status 304 the server drops the Content-Type header. -/
theorem upstream_response_any_status_counterexample :
    (reqPost.Method = "POST" ∧ reqPost.Header.Get "Authorization" ≠ "" ∧
      reqPost.Body.err = none) ∧
    (envOddStatus.clientDo (Route.authSignin.proxyReq "Bearer abc" [123, 125])
        = .ok { StatusCode := 99, Body := { data := [123, 125, 10], err := none } } ∧
      (respond (ProxyAuthHandler envOddStatus reqPost)).status = none ∧
      (respond (ProxyAuthHandler envOddStatus reqPost)).body = [] ∧
      (respond (ProxyGraphQLHandler envOddStatus reqPost)).status = none ∧
      (respond (ProxyGraphQLHandler envOddStatus reqPost)).body = []) ∧
    (envNotModified.clientDo (Route.authSignin.proxyReq "Bearer abc" [123, 125])
        = .ok { StatusCode := 304, Body := { data := [], err := none } } ∧
      (respond (ProxyAuthHandler envNotModified reqPost)).status = some 304 ∧
      (respond (ProxyAuthHandler envNotModified reqPost)).sentHeader.Get "Content-Type"
        ≠ "application/json") :=
  ⟨by decide, ⟨rfl, by decide, by decide, by decide, by decide⟩, rfl, by decide, by decide⟩

/-- C1 (amended): for both handlers, a POST request with a non-empty Authorization
header (and, for GraphQL, a readable inbound body) whose outbound request is answered
with a fully readable body X and a status S that is a final status code the server
accepts (101 or 200..999) other than 304, where X is empty when S allows no body
(101, 204), is answered to the caller with status S, body X and Content-Type
application/json. -/
theorem upstream_response_is_relayed (rt : Route) (env : Env) (r : Request)
    (S : Int) (X : Bytes)
    (hm : r.Method = "POST") (ha : r.Header.Get "Authorization" ≠ "")
    (hb : rt = Route.graphql → r.Body.err = none)
    (hd : env.clientDo (rt.proxyReq (r.Header.Get "Authorization") r.Body.data)
      = .ok { StatusCode := S, Body := { data := X, err := none } })
    (hS : S = 101 ∨ (200 ≤ S ∧ S ≤ 999)) (h304 : S ≠ 304)
    (hX : S = 101 ∨ S = 204 → X = []) :
    (respond (rt.handler env r)).status = some S ∧
      (respond (rt.handler env r)).body = X ∧
      (respond (rt.handler env r)).sentHeader.Get "Content-Type" = "application/json" := by
  have hm2 : r.Method = MethodPost := hm
  have h1 : checkWriteHeaderCode S = true := by
    simp only [checkWriteHeaderCode, decide_eq_true_eq]; omega
  have h2 : isInformational S = false := by
    simp only [isInformational, StatusSwitchingProtocols, decide_eq_false_iff_not]; omega
  have h3 : ((Header.Set ⟨[]⟩ "Content-Type" "application/json").DelAll
      (suppressedHeaders S)).Get "Content-Type" = "application/json" := by
    have hn : S ≠ StatusNotModified := h304
    simp only [suppressedHeaders, hn, if_false]
    split <;> simp [Header.DelAll, Header.Set, Header.Get, List.lookup]
  have h4 : (if bodyAllowedForStatus S = true then X else []) = X := by
    split
    · rfl
    · rename_i hba
      have : S = 101 ∨ S = 204 := by
        simp only [bodyAllowedForStatus, StatusNoContent, StatusNotModified,
          Bool.not_eq_true, Bool.not_eq_false, Bool.not_eq_eq_eq_not, Bool.not_true,
          Bool.not_not, Bool.or_eq_true, decide_eq_true_eq, beq_iff_eq] at hba
        omega
      exact (hX this).symm
  cases rt with
  | authSignin =>
    simp only [Route.proxyReq, Route.endpoint] at hd
    simp [Route.handler, ProxyAuthHandler, hm2, ha, NewRequest_authEndpoint, hd, ReadAll,
      respond, writeHeaderThen, ResponseWriter.step, ResponseWriter.WriteHeader,
      ResponseWriter.Write, ResponseWriter.status, ResponseWriter.sentHeader, h1, h2, h3, h4]
  | graphql =>
    have hb2 : r.Body.err = none := hb rfl
    simp only [Route.proxyReq, Route.endpoint] at hd
    simp [Route.handler, ProxyGraphQLHandler, hm2, ha, NewRequest_graphqlEndpoint, hd, hb2,
      ReadAll, respond, writeHeaderThen, ResponseWriter.step, ResponseWriter.WriteHeader,
      ResponseWriter.Write, ResponseWriter.status, ResponseWriter.sentHeader, h1, h2, h3, h4]

theorem upstream_response_is_relayed_witness :
    (respond (Route.graphql.handler envUp reqPost)).status = some 200 ∧
      (respond (Route.graphql.handler envUp reqPost)).body = [123, 125, 10] ∧
      (respond (Route.graphql.handler envUp reqPost)).sentHeader.Get "Content-Type"
        = "application/json" :=
  upstream_response_is_relayed Route.graphql envUp reqPost 200 [123, 125, 10]
    (by decide) (by decide) (by decide) rfl (by decide) (by decide) (by decide)

/-- C2: in the GraphQL handler, for a POST request with a non-empty Authorization
header whose body reads successfully as B (the empty B included), exactly one
outbound request is executed and its body is exactly B. -/
theorem graphql_body_is_forwarded (env : Env) (r : Request) (B : Bytes)
    (hm : r.Method = "POST") (ha : r.Header.Get "Authorization" ≠ "")
    (hb : ReadAll r.Body = (B, none)) :
    (∀ q ∈ outboundCalls (ProxyGraphQLHandler env r), q.Body = some B) ∧
      (∃ q, outboundCalls (ProxyGraphQLHandler env r) = [q] ∧ q.Body = some B) := by
  have hm2 : r.Method = MethodPost := hm
  simp only [ProxyGraphQLHandler, hb, NewRequest_graphqlEndpoint, hm2, ha, ne_eq,
    not_true_eq_false, if_false]
  split
  · simp [outboundCalls, httpError, writeHeaderThen, checkWriteHeaderCode,
      StatusBadGateway, OutboundRequest.setHeader]
  · split
    · simp [outboundCalls, httpError, writeHeaderThen, checkWriteHeaderCode,
        StatusInternalServerError, OutboundRequest.setHeader]
    · simp only [outboundCalls, writeHeaderThen]
      split <;> simp [OutboundRequest.setHeader]

theorem graphql_body_is_forwarded_witness :
    (∀ q ∈ outboundCalls (ProxyGraphQLHandler envUp reqPost), q.Body = some [123, 125]) ∧
      (∃ q, outboundCalls (ProxyGraphQLHandler envUp reqPost) = [q] ∧
        q.Body = some [123, 125]) :=
  graphql_body_is_forwarded envUp reqPost [123, 125] (by decide) (by decide) rfl

/-! ## Failures after validation -/

/-- C6: for both handlers, for every POST request with a non-empty Authorization
header (and a readable inbound body), if executing the outbound request fails the
status is 502, whatever the inbound body and the Authorization value are. -/
theorem execution_failure_is_bad_gateway (rt : Route) (env : Env) (r : Request)
    (e : String)
    (hm : r.Method = "POST") (ha : r.Header.Get "Authorization" ≠ "")
    (hb : rt = Route.graphql → r.Body.err = none)
    (hd : env.clientDo (rt.proxyReq (r.Header.Get "Authorization") r.Body.data)
      = .error e) :
    (respond (rt.handler env r)).status = some 502 ∧
      statusWrites (rt.handler env r) = [502] := by
  have hm2 : r.Method = MethodPost := hm
  cases rt with
  | authSignin =>
    simp only [Route.proxyReq, Route.endpoint] at hd
    simp [Route.handler, ProxyAuthHandler, hm2, ha, NewRequest_authEndpoint, hd, respond,
      ResponseWriter.step, ResponseWriter.WriteHeader, ResponseWriter.Write,
      ResponseWriter.status, httpError, writeHeaderThen, checkWriteHeaderCode,
      isInformational, statusWrites, StatusBadGateway, StatusSwitchingProtocols]
  | graphql =>
    have hb2 : r.Body.err = none := hb rfl
    simp only [Route.proxyReq, Route.endpoint] at hd
    simp [Route.handler, ProxyGraphQLHandler, hm2, ha, NewRequest_graphqlEndpoint, hd, hb2,
      ReadAll, respond, ResponseWriter.step, ResponseWriter.WriteHeader,
      ResponseWriter.Write, ResponseWriter.status, httpError, writeHeaderThen,
      checkWriteHeaderCode, isInformational, statusWrites, StatusBadGateway,
      StatusSwitchingProtocols]

theorem execution_failure_is_bad_gateway_witness :
    (respond (Route.graphql.handler envDown reqPost)).status = some 502 ∧
      statusWrites (Route.graphql.handler envDown reqPost) = [502] :=
  execution_failure_is_bad_gateway Route.graphql envDown reqPost
    "dial tcp: connection refused" (by decide) (by decide) (by decide) rfl

/-- C7: for both handlers, when the outbound request executes successfully but
reading the upstream body fails, the status is 500, and what the caller receives is
the fixed error reply alone: it depends neither on the upstream status code nor on
the bytes read from the upstream body before the failure. -/
theorem upstream_read_failure_is_internal_error (rt : Route) (env : Env) (r : Request)
    (S : Int) (X : Bytes) (e : String)
    (hm : r.Method = "POST") (ha : r.Header.Get "Authorization" ≠ "")
    (hb : rt = Route.graphql → r.Body.err = none)
    (hd : env.clientDo (rt.proxyReq (r.Header.Get "Authorization") r.Body.data)
      = .ok { StatusCode := S, Body := { data := X, err := some e } }) :
    (respond (rt.handler env r)).status = some 500 ∧
      (rt.handler env r).filter Effect.isCallerWrite
        = httpError "Failed to read response" 500 ∧
      respond (rt.handler env r) = respond (httpError "Failed to read response" 500) := by
  have hm2 : r.Method = MethodPost := hm
  cases rt with
  | authSignin =>
    simp only [Route.proxyReq, Route.endpoint] at hd
    simp [Route.handler, ProxyAuthHandler, hm2, ha, NewRequest_authEndpoint, hd, ReadAll,
      respond, ResponseWriter.step, ResponseWriter.WriteHeader, ResponseWriter.Write,
      ResponseWriter.status, httpError, writeHeaderThen, checkWriteHeaderCode,
      isInformational, Effect.isCallerWrite, StatusInternalServerError,
      StatusSwitchingProtocols]
  | graphql =>
    have hb2 : r.Body.err = none := hb rfl
    simp only [Route.proxyReq, Route.endpoint] at hd
    simp [Route.handler, ProxyGraphQLHandler, hm2, ha, NewRequest_graphqlEndpoint, hd, hb2,
      ReadAll, respond, ResponseWriter.step, ResponseWriter.WriteHeader,
      ResponseWriter.Write, ResponseWriter.status, httpError, writeHeaderThen,
      checkWriteHeaderCode, isInformational, Effect.isCallerWrite,
      StatusInternalServerError, StatusSwitchingProtocols]

theorem upstream_read_failure_is_internal_error_witness :
    (respond (Route.authSignin.handler envBroken reqPost)).status = some 500 ∧
      (Route.authSignin.handler envBroken reqPost).filter Effect.isCallerWrite
        = httpError "Failed to read response" 500 ∧
      respond (Route.authSignin.handler envBroken reqPost)
        = respond (httpError "Failed to read response" 500) :=
  upstream_read_failure_is_internal_error Route.authSignin envBroken reqPost 200 [123]
    "unexpected EOF" (by decide) (by decide) (by decide) rfl

/-! ## Shape of the outbound request and of the trace -/

/-- C9: for every request that passes validation (POST, non-empty Authorization,
and for GraphQL a readable body), each handler executes exactly one outbound
request: a POST to its endpoint constant whose header holds exactly Authorization,
with the inbound value, and Content-Type application/json; the auth handler sends no
body whatever the inbound body is, the GraphQL handler sends the inbound bytes. -/
theorem outbound_request_shape (rt : Route) (env : Env) (r : Request)
    (hm : r.Method = "POST") (ha : r.Header.Get "Authorization" ≠ "")
    (hb : rt = Route.graphql → r.Body.err = none) :
    outboundCalls (rt.handler env r) =
      [{ Method := "POST",
         URL := (match rt with
           | .authSignin => "https://platform.zone01.gr/api/auth/signin"
           | .graphql => "https://platform.zone01.gr/api/graphql-engine/v1/graphql"),
         Header := ⟨[("Authorization", [r.Header.Get "Authorization"]),
                     ("Content-Type", ["application/json"])]⟩,
         Body := (match rt with
           | .authSignin => none
           | .graphql => some r.Body.data) }] := by
  have hm2 : r.Method = MethodPost := hm
  cases rt with
  | authSignin =>
    simp only [Route.handler, ProxyAuthHandler, NewRequest_authEndpoint, ReadAll, hm2, ha,
      ne_eq, not_true_eq_false, if_false]
    split
    · simp [outboundCalls, httpError, writeHeaderThen, checkWriteHeaderCode,
        StatusBadGateway, OutboundRequest.setHeader, Header.Set, authEndpoint]
    · split
      · simp [outboundCalls, httpError, writeHeaderThen, checkWriteHeaderCode,
          StatusInternalServerError, OutboundRequest.setHeader, Header.Set, authEndpoint]
      · simp only [outboundCalls, writeHeaderThen]
        split <;> simp [OutboundRequest.setHeader, Header.Set, authEndpoint]
  | graphql =>
    have hb2 : r.Body.err = none := hb rfl
    simp only [Route.handler, ProxyGraphQLHandler, NewRequest_graphqlEndpoint, ReadAll,
      hb2, hm2, ha, ne_eq, not_true_eq_false, if_false]
    split
    · simp [outboundCalls, httpError, writeHeaderThen, checkWriteHeaderCode,
        StatusBadGateway, OutboundRequest.setHeader, Header.Set, graphqlEndpoint]
    · split
      · simp [outboundCalls, httpError, writeHeaderThen, checkWriteHeaderCode,
          StatusInternalServerError, OutboundRequest.setHeader, Header.Set,
          graphqlEndpoint]
      · simp only [outboundCalls, writeHeaderThen]
        split <;> simp [OutboundRequest.setHeader, Header.Set, graphqlEndpoint]

theorem outbound_request_shape_witness :
    outboundCalls (Route.authSignin.handler envUp reqPost) =
      [{ Method := "POST",
         URL := "https://platform.zone01.gr/api/auth/signin",
         Header := ⟨[("Authorization", ["Bearer abc"]),
                     ("Content-Type", ["application/json"])]⟩,
         Body := none }] :=
  outbound_request_shape Route.authSignin envUp reqPost (by decide) (by decide)
    (by decide)

/-! ## Facts about the whole trace, one per aspect -/

/-- A final status code (101 or 200..999) is accepted by `WriteHeader` and is not
informational. -/
theorem final_code_accepted (c : Int) (hc : c = 101 ∨ (200 ≤ c ∧ c ≤ 999)) :
    checkWriteHeaderCode c = true ∧ isInformational c = false := by
  constructor
  · simp only [checkWriteHeaderCode, decide_eq_true_eq]; omega
  · simp only [isInformational, StatusSwitchingProtocols, decide_eq_false_iff_not]; omega

/-- Every run calls `WriteHeader` exactly once. -/
theorem statusWrites_length (rt : Route) (env : Env) (r : Request) :
    (statusWrites (rt.handler env r)).length = 1 := by
  cases rt with
  | authSignin =>
    simp only [Route.handler, ProxyAuthHandler, NewRequest_authEndpoint, ReadAll]
    repeat' split
    all_goals
      simp [statusWrites, httpError, writeHeaderThen]
    all_goals
      split <;> simp
  | graphql =>
    simp only [Route.handler, ProxyGraphQLHandler, NewRequest_graphqlEndpoint, ReadAll]
    repeat' split
    all_goals
      simp [statusWrites, httpError, writeHeaderThen]
    all_goals
      split <;> simp

/-- Every run executes at most one outbound request. -/
theorem outboundCalls_length_le (rt : Route) (env : Env) (r : Request) :
    (outboundCalls (rt.handler env r)).length ≤ 1 := by
  cases rt with
  | authSignin =>
    simp only [Route.handler, ProxyAuthHandler, NewRequest_authEndpoint, ReadAll]
    repeat' split
    all_goals
      simp [outboundCalls, httpError, writeHeaderThen]
    all_goals
      split <;> simp
  | graphql =>
    simp only [Route.handler, ProxyGraphQLHandler, NewRequest_graphqlEndpoint, ReadAll]
    repeat' split
    all_goals
      simp [outboundCalls, httpError, writeHeaderThen]
    all_goals
      split <;> simp

/-- In every run no effect on the response to the caller precedes a pipeline step. -/
theorem writes_follow_pipeline (rt : Route) (env : Env) (r : Request) :
    (rt.handler env r).Pairwise
      (fun a b => a.isCallerWrite = true → b.isPipelineStep = false) := by
  cases rt with
  | authSignin =>
    simp only [Route.handler, ProxyAuthHandler, NewRequest_authEndpoint, ReadAll]
    repeat' split
    all_goals
      simp only [httpError, writeHeaderThen, List.cons_append, List.nil_append,
        List.append_assoc]
      split
      all_goals
        simp [Effect.isCallerWrite, Effect.isPipelineStep]
  | graphql =>
    simp only [Route.handler, ProxyGraphQLHandler, NewRequest_graphqlEndpoint, ReadAll]
    repeat' split
    all_goals
      simp only [httpError, writeHeaderThen, List.cons_append, List.nil_append,
        List.append_assoc]
      split
      all_goals
        simp [Effect.isCallerWrite, Effect.isPipelineStep]

/-- The code passed to `WriteHeader` is a fixed error code unless it is the status of
an upstream response whose body was read in full. -/
theorem statusWrites_origin (rt : Route) (env : Env) (r : Request) (c : Int)
    (hc : c ∈ statusWrites (rt.handler env r)) :
    c ∈ [400, 401, 405, 500, 502] ∨
      ∃ resp, env.clientDo (rt.proxyReq (r.Header.Get "Authorization") r.Body.data)
        = .ok resp ∧ resp.Body.err = none ∧ resp.StatusCode = c := by
  revert hc
  cases rt with
  | authSignin =>
    simp only [Route.handler, ProxyAuthHandler, NewRequest_authEndpoint, ReadAll,
      Route.proxyReq, Route.endpoint]
    repeat' split
    all_goals
      simp only [statusWrites, httpError, writeHeaderThen, List.filterMap_cons,
        List.filterMap_append, List.cons_append, List.nil_append, List.append_assoc]
      split
      all_goals
        simp only [List.filterMap_cons, List.filterMap_nil, List.mem_singleton,
          List.append_nil, List.nil_append]
        intro hc
        subst hc
        simp_all [StatusMethodNotAllowed, StatusUnauthorized, StatusBadRequest,
          StatusInternalServerError, StatusBadGateway]
  | graphql =>
    simp only [Route.handler, ProxyGraphQLHandler, NewRequest_graphqlEndpoint, ReadAll,
      Route.proxyReq, Route.endpoint]
    repeat' split
    all_goals
      simp only [statusWrites, httpError, writeHeaderThen, List.filterMap_cons,
        List.filterMap_append, List.cons_append, List.nil_append, List.append_assoc]
      split
      all_goals
        simp only [List.filterMap_cons, List.filterMap_nil, List.mem_singleton,
          List.append_nil, List.nil_append]
        intro hc
        subst hc
        simp_all [StatusMethodNotAllowed, StatusUnauthorized, StatusBadRequest,
          StatusInternalServerError, StatusBadGateway]

/-- When the code passed to `WriteHeader` is a final status code, the caller receives
that status line and no other. -/
theorem status_delivered (rt : Route) (env : Env) (r : Request) (c : Int)
    (hc : c ∈ statusWrites (rt.handler env r))
    (hfin : c = 101 ∨ (200 ≤ c ∧ c ≤ 999)) :
    (respond (rt.handler env r)).status = some c ∧
      (respond (rt.handler env r)).informational = [] := by
  obtain ⟨h1, h2⟩ := final_code_accepted c hfin
  revert hc
  cases rt with
  | authSignin =>
    simp only [Route.handler, ProxyAuthHandler, NewRequest_authEndpoint, ReadAll]
    repeat' split
    all_goals
      simp only [statusWrites, httpError, writeHeaderThen, List.filterMap_cons,
        List.filterMap_append, List.cons_append, List.nil_append, List.append_assoc]
      split
      all_goals
        simp only [List.filterMap_cons, List.filterMap_nil, List.mem_singleton,
          List.append_nil, List.nil_append]
        intro hc
        subst hc
        simp [respond, ResponseWriter.step, ResponseWriter.WriteHeader,
          ResponseWriter.Write, ResponseWriter.status, h1, h2]
  | graphql =>
    simp only [Route.handler, ProxyGraphQLHandler, NewRequest_graphqlEndpoint, ReadAll]
    repeat' split
    all_goals
      simp only [statusWrites, httpError, writeHeaderThen, List.filterMap_cons,
        List.filterMap_append, List.cons_append, List.nil_append, List.append_assoc]
      split
      all_goals
        simp only [List.filterMap_cons, List.filterMap_nil, List.mem_singleton,
          List.append_nil, List.nil_append]
        intro hc
        subst hc
        simp [respond, ResponseWriter.step, ResponseWriter.WriteHeader,
          ResponseWriter.Write, ResponseWriter.status, h1, h2]

/-- C10, as stated, fails: for the upstream status line `HTTP/1.1 099` the one
`WriteHeader` call of the trace panics, so no status line at all reaches the caller
and the write of the body is never reached. -/
theorem single_terminal_reply_counterexample :
    statusWrites (ProxyAuthHandler envOddStatus reqPost) = [99] ∧
      (respond (ProxyAuthHandler envOddStatus reqPost)).status = none ∧
      (respond (ProxyAuthHandler envOddStatus reqPost)).informational = [] ∧
      statusWrites (ProxyGraphQLHandler envOddStatus reqPost) = [99] ∧
      (respond (ProxyGraphQLHandler envOddStatus reqPost)).status = none ∧
      (respond (ProxyGraphQLHandler envOddStatus reqPost)).informational = [] ∧
      (ProxyGraphQLHandler envOddStatus reqPost).filter Effect.isCallerWrite
        = [.setHeader "Content-Type" "application/json", .writeHeader 99] := by
  decide

/-- C10 (amended): for both handlers and every input, the trace holds exactly one
`WriteHeader` call and at most one outbound call, and no effect on the response to
the caller precedes a pipeline step (reading the inbound body, building or executing
the outbound request, reading the upstream body); the code of that call is one of the
fixed error codes 400, 401, 405, 500, 502 unless it is the status of an upstream
response whose body was read in full; and whenever the code is a final status code the
server accepts (101 or 200..999) the caller receives exactly that one status line. -/
theorem single_terminal_reply (rt : Route) (env : Env) (r : Request) :
    (statusWrites (rt.handler env r)).length = 1 ∧
      (outboundCalls (rt.handler env r)).length ≤ 1 ∧
      (rt.handler env r).Pairwise
        (fun a b => a.isCallerWrite = true → b.isPipelineStep = false) ∧
      (∀ c ∈ statusWrites (rt.handler env r),
        c ∈ [400, 401, 405, 500, 502] ∨
          ∃ resp, env.clientDo (rt.proxyReq (r.Header.Get "Authorization") r.Body.data)
            = .ok resp ∧ resp.Body.err = none ∧ resp.StatusCode = c) ∧
      (∀ c ∈ statusWrites (rt.handler env r), (c = 101 ∨ (200 ≤ c ∧ c ≤ 999)) →
        (respond (rt.handler env r)).status = some c ∧
          (respond (rt.handler env r)).informational = []) :=
  ⟨statusWrites_length rt env r, outboundCalls_length_le rt env r,
    writes_follow_pipeline rt env r, fun c hc => statusWrites_origin rt env r c hc,
    fun c hc hfin => status_delivered rt env r c hc hfin⟩

theorem single_terminal_reply_witness :
    (respond (Route.graphql.handler envDown reqPost)).status = some 502 ∧
      (respond (Route.graphql.handler envDown reqPost)).informational = [] :=
  (single_terminal_reply Route.graphql envDown reqPost).2.2.2.2 502 (by decide) (by decide)

end Proxy
